import Mathlib

/-!
Verification of the ytdlp-video-downloader repository.

This development shallowly embeds the Python source of the repository
(`src/platform_detector.py`, `src/downloader.py`, `src/models.py`,
`src/api.py`) into Lean and proves the specified properties of it.

Modelling conventions:
* Python strings are Lean `String` / `List Char`; `str.lower()` is modelled by
  `Char.toLower` on every character (they agree on ASCII, which is all the
  source's tables use).
* The regular-expression patterns of `PlatformDetector.PLATFORM_PATTERNS` use
  only literal characters, the alternation `(?:a|b)`, the non-greedy gap
  `.*?` and the digit class `\d+`.  Each pattern is embedded as a list of
  alternatives, every alternative being a sequence of tokens
  (literal / any-char-star / one-or-more-digits); `re.search` truthiness is
  the existence of a match at some position, which is independent of
  greediness.
* Optional values / absent dict keys are `Option`; Python truthiness of
  numbers (`if height:`) is modelled explicitly (`0` and `None` are falsy).
* The external yt-dlp engine, the filesystem, and `os.path.abspath` are an
  explicit environment (`Engine`); each top-level operation also returns the
  list of engine operations it invoked, so "the engine is never called" is
  the trace being `[]`.
* Machine floats in `_format_file_size` are modelled by exact rational
  arithmetic carried out on integers (the value after `k` divisions is
  exactly `n / 1024^k`, and `f"{x:.1f}"` is round-half-even of the exact
  value), which coincides with the Python float computation for all sizes
  below 2^53.
-/

/-! ## Platform detection (`src/platform_detector.py`) -/

/-- One token of a (restricted) regular expression: a literal string,
the non-greedy any-character gap `.*?` (matching characters other than a
newline), or the digit class `\d+`. -/
inductive Tok where
  | lit (s : List Char)
  | anystar
  | digits1
deriving DecidableEq, Repr

/-- A pattern is a list of alternatives (the top-level `(?:a|b)`), each a
token sequence. -/
abbrev Pat := List (List Tok)

/-- Does the token sequence match some prefix of `l`?  (Existence semantics:
greediness of `.*?` is irrelevant for `re.search` truthiness.) -/
def seqMatch : List Tok → List Char → Bool
  | [], _ => true
  | .lit s :: rest, l => s.isPrefixOf l && seqMatch rest (l.drop s.length)
  | .anystar :: rest, l =>
      (List.range (l.length + 1)).any fun k =>
        (l.take k).all (fun c => c ≠ '\n') && seqMatch rest (l.drop k)
  | .digits1 :: rest, l =>
      (List.range l.length).any fun k =>
        (l.take (k + 1)).all Char.isDigit && seqMatch rest (l.drop (k + 1))

/-- Does the token sequence match starting at some position of `l`?
This is the truthiness of Python's `re.search` for one alternative. -/
def searchSeq (ts : List Tok) : List Char → Bool
  | [] => seqMatch ts []
  | c :: l' => seqMatch ts (c :: l') || searchSeq ts l'

/-- `re.search(pattern, l)` truthiness for an embedded pattern. -/
def reSearch (p : Pat) (l : List Char) : Bool :=
  p.any fun ts => searchSeq ts l

/-- Literal-string token sequence helper. -/
def litS (s : String) : List Tok := [Tok.lit s.data]

/-- `PlatformDetector.PLATFORM_PATTERNS`: the fixed platform table, in its
insertion order, each platform with its ordered pattern list.  Every entry is
the hand-translation of the original regular expression (shown in the
comment). -/
def PLATFORM_PATTERNS : List (String × List Pat) :=
  [ ("YouTube",
      [ [ [Tok.lit "youtube.com".data], [Tok.lit "youtu.be".data] ],      -- (?:youtube\.com|youtu\.be)
        [litS "youtube.com/watch?v="],                                     -- youtube\.com/watch\?v=
        [litS "youtu.be/"],                                                -- youtu\.be/
        [litS "youtube.com/embed/"],                                       -- youtube\.com/embed/
        [litS "youtube.com/v/"] ]),                                        -- youtube\.com/v/
    ("Facebook",
      [ [litS "facebook.com"],                                             -- facebook\.com
        [litS "fb.watch"],                                                 -- fb\.watch
        [litS "facebook.com/watch"],                                       -- facebook\.com/watch
        [ [Tok.lit "facebook.com/".data, Tok.anystar, Tok.lit "/videos".data] ] ]), -- facebook\.com/.*?/videos
    ("Twitter/X",
      [ [litS "twitter.com"],                                              -- twitter\.com
        [litS "x.com"],                                                    -- x\.com
        [ [Tok.lit "twitter.com/".data, Tok.anystar, Tok.lit "/status".data] ],     -- twitter\.com/.*?/status
        [ [Tok.lit "x.com/".data, Tok.anystar, Tok.lit "/status".data] ] ]),        -- x\.com/.*?/status
    ("Instagram",
      [ [litS "instagram.com"],                                            -- instagram\.com
        [litS "instagram.com/p/"],                                         -- instagram\.com/p/
        [litS "instagram.com/reel/"],                                      -- instagram\.com/reel/
        [litS "instagram.com/tv/"] ]),                                     -- instagram\.com/tv/
    ("TikTok",
      [ [litS "tiktok.com"],                                               -- tiktok\.com
        [ [Tok.lit "tiktok.com/@".data, Tok.anystar, Tok.lit "/video".data] ] ]),   -- tiktok\.com/@.*?/video
    ("Vimeo",
      [ [litS "vimeo.com"],                                                -- vimeo\.com
        [ [Tok.lit "vimeo.com/".data, Tok.digits1] ] ]),                   -- vimeo\.com/\d+
    ("Twitch",
      [ [litS "twitch.tv"],                                                -- twitch\.tv
        [litS "twitch.tv/videos"],                                         -- twitch\.tv/videos
        [ [Tok.lit "twitch.tv/".data, Tok.anystar, Tok.lit "/clip".data] ] ]),      -- twitch\.tv/.*?/clip
    ("Dailymotion",
      [ [litS "dailymotion.com"],                                          -- dailymotion\.com
        [litS "dailymotion.com/video"] ]) ]                                -- dailymotion\.com/video

/-- Does any pattern of the list match? -/
def anyPatMatch (pats : List Pat) (l : List Char) : Bool :=
  pats.any fun p => reSearch p l

/-- The platform scan: first platform (in table order) with a matching
pattern. -/
def detectL : List (String × List Pat) → List Char → Option String
  | [], _ => none
  | (name, pats) :: rest, u =>
      if anyPatMatch pats u then some name else detectL rest u

/-- `url.lower()` as a character list. -/
def lowerL (url : String) : List Char := url.data.map Char.toLower

/-- `PlatformDetector.detect_platform`: lower-case the URL, scan the table,
return the first matching platform or `None`.  Total (never throws). -/
def detect_platform (url : String) : Option String :=
  detectL PLATFORM_PATTERNS (lowerL url)

/-- `PlatformDetector.get_supported_platforms`: the table's keys in order. -/
def get_supported_platforms : List String := PLATFORM_PATTERNS.map Prod.fst

/-- Python's substring test `needle in hay` on character lists. -/
def listContains (needle : List Char) : List Char → Bool
  | [] => needle.isPrefixOf []
  | c :: t => needle.isPrefixOf (c :: t) || listContains needle t

/-- Python's substring test on strings. -/
def strContains (needle hay : String) : Bool :=
  listContains needle.data hay.data

/-! ## Response formatting (`src/downloader.py`) -/

/-- Python `f"{n:02d}"` for a non-negative integer: zero-pad to width 2. -/
def pad2 (n : Nat) : String :=
  if n < 10 then "0" ++ toString n else toString n

/-- `VideoDownloader._format_duration`: `None` in, `None` out; otherwise
hours/minutes/seconds by floor division, `HH:MM:SS` when hours > 0, else
`MM:SS`, each component zero-padded to 2 digits. -/
def format_duration : Option Nat → Option String
  | none => none
  | some d =>
    let hours := d / 3600
    let minutes := (d % 3600) / 60
    let seconds := d % 60
    if 0 < hours then
      some (pad2 hours ++ ":" ++ pad2 minutes ++ ":" ++ pad2 seconds)
    else
      some (pad2 minutes ++ ":" ++ pad2 seconds)

/-- Python `f"{x:.1f}"` for the exact non-negative rational `num / den`
(`den > 0`): one decimal digit, rounding half to even.  This is exactly the
float rendering whenever the float holds the exact value. -/
def fmtOneDecimal (num den : Nat) : String :=
  let t := num * 10
  let q := t / den
  let r := t % den
  let rounded :=
    if den < 2 * r then q + 1
    else if 2 * r < den then q
    else if q % 2 = 1 then q + 1 else q
  toString (rounded / 10) ++ "." ++ toString (rounded % 10)

/-- The unit list of `_format_file_size`'s loop. -/
def sizeUnits : List String := ["B", "KB", "MB", "GB"]

/-- The loop of `_format_file_size`: after `k` divisions the value is exactly
`n / 1024^k`; divide while it is ≥ 1024 and units remain, else render. -/
def fsGo (n : Nat) : Nat → List String → String
  | k, [] => fmtOneDecimal n (1024 ^ k) ++ " " ++ "TB"
  | k, u :: us =>
    if n < 1024 ^ (k + 1) then fmtOneDecimal n (1024 ^ k) ++ " " ++ u
    else fsGo n (k + 1) us

/-- `_format_file_size` on a present byte count. -/
def fsRender (n : Nat) : String := fsGo n 0 sizeUnits

/-- `VideoDownloader._format_file_size`. -/
def format_file_size : Option Nat → Option String
  | none => none
  | some n => some (fsRender n)

/-- The unit index `_format_file_size` ends at: least `k ≤ 3` with
`n < 1024^(k+1)`, else `4` (TB). -/
def unitIdx (n : Nat) : Nat :=
  if n < 1024 then 0
  else if n < 1024 ^ 2 then 1
  else if n < 1024 ^ 3 then 2
  else if n < 1024 ^ 4 then 3
  else 4

/-- Unit suffix for a unit index. -/
def unitName (k : Nat) : String := (sizeUnits ++ ["TB"]).getD k "TB"

/-! ## Format descriptors (`info['formats']` entries) -/

/-- One yt-dlp format descriptor, with exactly the keys the source reads.
`none` models an absent key (or a `None` value). -/
structure Format where
  format_id : Option String := none
  ext : Option String := none
  resolution : Option String := none
  filesize : Option Nat := none
  filesize_approx : Option Nat := none
  vcodec : Option String := none
  acodec : Option String := none
  quality : Option Int := none
  format_note : Option String := none
  height : Option Nat := none
  width : Option Nat := none
  fps : Option Nat := none
deriving DecidableEq, Repr

/-- Python truthiness of `fmt.get('height')`: `None` and `0` are falsy. -/
def truthyHeight (f : Format) : Option Nat :=
  match f.height with
  | some h => if h = 0 then none else some h
  | none => none

/-- Python truthiness of `fmt.get('width')`. -/
def truthyWidth (f : Format) : Option Nat :=
  match f.width with
  | some w => if w = 0 then none else some w
  | none => none

/-- `fmt.get('vcodec', 'none') != 'none'`: the format has video. -/
def isVid (f : Format) : Bool := f.vcodec.getD "none" != "none"

/-- `fmt.get('acodec', 'none') != 'none'`: the format has audio. -/
def isAud (f : Format) : Bool := f.acodec.getD "none" != "none"

/-- The height a video format contributes (only used on formats whose
`truthyHeight` is `some`). -/
def hgt (f : Format) : Nat := (truthyHeight f).getD 0

/-! ## `_get_video_quality_info` -/

/-- The best-quality descriptor dict built in `_get_video_quality_info`. -/
structure VQDesc where
  width : Option Nat
  height : Nat
  resolution : String
  fps : Option Nat
  vcodec : Option String
  acodec : Option String
  ext : Option String
  format_note : String
  quality_label : String
deriving DecidableEq, Repr

/-- The descriptor built from a format with truthy height `h`. -/
def mkDesc (f : Format) (h : Nat) : VQDesc :=
  { width := f.width
    height := h
    resolution :=
      match truthyWidth f with
      | some w => toString w ++ "x" ++ toString h
      | none => toString h ++ "p"
    fps := f.fps
    vcodec := f.vcodec
    acodec := f.acodec
    ext := f.ext
    format_note := f.format_note.getD ""
    quality_label := toString h ++ "p" }

/-- `mkDesc` at the format's own truthy height. -/
def mkDescF (f : Format) : VQDesc := mkDesc f (hgt f)

/-- One iteration of the `_get_video_quality_info` loop: state is
(best-so-far, heights collected into `available_qualities`). -/
def vqStep (acc : Option VQDesc × List Nat) (f : Format) : Option VQDesc × List Nat :=
  if isVid f then
    match truthyHeight f with
    | some h =>
      let labels := acc.2 ++ [h]
      let best :=
        match acc.1 with
        | none => some (mkDesc f h)
        | some b => if b.height < h then some (mkDesc f h) else some b
      (best, labels)
    | none => acc
  else acc

/-- The whole `_get_video_quality_info` loop. -/
def vqLoop (fmts : List Format) : Option VQDesc × List Nat :=
  fmts.foldl vqStep (none, [])

/-- The video formats with truthy height, in order (the iterations that
contribute to `_get_video_quality_info`). -/
def vids (fmts : List Format) : List Format :=
  fmts.filter fun f => isVid f && (truthyHeight f).isSome

/-- `best_quality` of `_get_video_quality_info`. -/
def bestQuality (fmts : List Format) : Option VQDesc := (vqLoop fmts).1

/-- The heights added to `available_qualities`, in iteration order (with
duplicates; the Python code adds them to a set). -/
def collectedHeights (fmts : List Format) : List Nat := (vqLoop fmts).2

/-- Descending order on `Nat` (for `sorted(..., reverse=True)`). -/
def descRel (a b : Nat) : Prop := b ≤ a

instance : DecidableRel descRel := fun a b => Nat.decLe b a

instance : IsTotal Nat descRel := ⟨fun a b => Nat.le_total b a⟩

instance : IsTrans Nat descRel := ⟨fun _ _ _ h1 h2 => Nat.le_trans h2 h1⟩

/-- `sorted(set(available_qualities), key=int-of-label, reverse=True)` as the
underlying heights: distinct heights, descending. -/
def qualHeights (fmts : List Format) : List Nat :=
  ((collectedHeights fmts).dedup).insertionSort descRel

/-- `available_qualities` of `_get_video_quality_info`: distinct
`"{height}p"` labels, sorted descending numerically. -/
def availableQualities (fmts : List Format) : List String :=
  (qualHeights fmts).map fun h => toString h ++ "p"

/-- The dict returned by `_get_video_quality_info`. -/
structure QualityResult where
  best_quality : Option VQDesc
  available_qualities : List String
  has_video : Bool
  max_resolution : Option String
  max_fps : Option Nat
deriving DecidableEq, Repr

/-- `VideoDownloader._get_video_quality_info`. -/
def qualityInfo (fmts : List Format) : QualityResult :=
  { best_quality := bestQuality fmts
    available_qualities := availableQualities fmts
    has_video := (bestQuality fmts).isSome
    max_resolution := (bestQuality fmts).map (·.resolution)
    max_fps := (bestQuality fmts).bind (·.fps) }

/-! ## `_get_estimated_file_sizes` -/

/-- `fmt.get('filesize') or fmt.get('filesize_approx')`, then
`if not filesize: continue`: the effective size, `none` when both values are
falsy (`None` or `0`). -/
def effSize (f : Format) : Option Nat :=
  match f.filesize with
  | some n => if n = 0 then
      (match f.filesize_approx with
       | some m => if m = 0 then none else some m
       | none => none)
    else some n
  | none =>
    match f.filesize_approx with
    | some m => if m = 0 then none else some m
    | none => none

/-- The `format_info` dict built in `_get_estimated_file_sizes`. -/
structure SizeInfo where
  format_id : Option String
  ext : Option String
  filesize : Nat
  filesize_formatted : Option String
  quality : String
  resolution : String
deriving DecidableEq, Repr

/-- Build the `format_info` dict from a format and its effective size. -/
def mkSizeInfo (f : Format) (n : Nat) : SizeInfo :=
  { format_id := f.format_id
    ext := f.ext
    filesize := n
    filesize_formatted := format_file_size (some n)
    quality := f.format_note.getD ""
    resolution := f.resolution.getD "unknown" }

/-- `not best or filesize > best['filesize']` (the `.get('filesize', 0)`
default is never used: the key is always present). -/
def beats (cur : Option SizeInfo) (n : Nat) : Bool :=
  match cur with
  | none => true
  | some b => decide (b.filesize < n)

/-- Loop state of `_get_estimated_file_sizes`. -/
structure ESState where
  bv : Option SizeInfo
  ba : Option SizeInfo
  vlist : List SizeInfo
  alist : List SizeInfo
deriving DecidableEq, Repr

/-- One iteration of the `_get_estimated_file_sizes` loop.  Note the nested
conditional: `best_video` is replaced only when the size beats the current
best AND the format's height is at least 720. -/
def esStep (st : ESState) (f : Format) : ESState :=
  match effSize f with
  | none => st
  | some n =>
    let fi := mkSizeInfo f n
    if isVid f then
      let bv' :=
        if beats st.bv n && decide (720 ≤ f.height.getD 0)
        then some fi else st.bv
      { st with vlist := st.vlist ++ [fi], bv := bv' }
    else if isAud f then
      let ba' := if beats st.ba n then some fi else st.ba
      { st with alist := st.alist ++ [fi], ba := ba' }
    else st

/-- Descending order on `SizeInfo` by `filesize`
(`sort(key=..., reverse=True)`). -/
def sizeDescRel (a b : SizeInfo) : Prop := b.filesize ≤ a.filesize

instance : DecidableRel sizeDescRel := fun a b => Nat.decLe b.filesize a.filesize

/-- The dict returned by `_get_estimated_file_sizes`. -/
structure SizesResult where
  best_video : Option SizeInfo
  best_audio : Option SizeInfo
  video_options : List SizeInfo
  audio_options : List SizeInfo
  estimated_total : Option String
deriving DecidableEq, Repr

/-- `VideoDownloader._get_estimated_file_sizes`. -/
def estSizes (fmts : List Format) : SizesResult :=
  let st := fmts.foldl esStep ⟨none, none, [], []⟩
  { best_video := st.bv
    best_audio := st.ba
    video_options := (st.vlist.insertionSort sizeDescRel).take 5
    audio_options := (st.alist.insertionSort sizeDescRel).take 3
    estimated_total :=
      if st.bv.isSome || st.ba.isSome then
        format_file_size (some ((st.bv.map (·.filesize)).getD 0 +
                                (st.ba.map (·.filesize)).getD 0))
      else none }

/-! ## Request models (`src/models.py`) -/

/-- `DownloadType`. -/
inductive DlType where
  | video
  | audio
deriving DecidableEq, Repr

/-- `DownloadType.value`. -/
def dlTypeValue : DlType → String
  | .video => "video"
  | .audio => "audio"

/-- `download_type.value.capitalize()` / `.title()` on the enum values. -/
def dlTypeCap : DlType → String
  | .video => "Video"
  | .audio => "Audio"

/-- `str.lower()` on a string. -/
def lowerS (s : String) : String := ⟨lowerL s⟩

/-- `DownloadType(download_type.lower())`: enum lookup by value, `none` on
`ValueError`. -/
def parseDlType (s : String) : Option DlType :=
  if lowerS s = "video" then some .video
  else if lowerS s = "audio" then some .audio
  else none

/-- The allowlist of `DownloadRequest.validate_url`. -/
def supported_domains : List String :=
  ["youtube.com", "youtu.be", "facebook.com", "fb.watch",
   "twitter.com", "x.com", "instagram.com", "tiktok.com",
   "vimeo.com", "dailymotion.com", "twitch.tv"]

/-- `DownloadRequest.validate_url` acceptance:
`any(domain in url_str for domain in supported_domains)`. -/
def validate_url (url : String) : Bool :=
  supported_domains.any fun d => listContains d.data url.data

/-! ## The engine environment and `VideoDownloader.download` -/

/-- The metadata dict returned by the engine's `extract_info`, with the keys
the source reads. -/
structure Info where
  title : Option String := none
  duration : Option Nat := none
  view_count : Option Nat := none
  uploader : Option String := none
  upload_date : Option String := none
  description : Option String := none
  thumbnail : Option String := none
  webpage_url : Option String := none
  formats : List Format := []

/-- Outcome of one `ydl.download(...)` call: either it finishes, or it
raises `yt_dlp.DownloadError`; either way `files` are the paths the progress
hooks appended to `downloaded_files` during the call. -/
inductive EngineOutcome where
  | ok (files : List String)
  | err (files : List String) (msg : String)

/-- The external engine plus filesystem, fixed for one request: the result of
`_extract_info`, the outcomes of the primary and the fallback
`ydl.download` calls, `os.path.exists`, `os.path.getsize`, and
`os.path.abspath`. -/
structure Engine where
  extract_info : Option Info
  attempt1 : EngineOutcome
  attempt2 : EngineOutcome
  exists_fs : String → Bool
  getsize : String → Nat
  abspath : String → String

/-- A download / error result dict (`DownloadResponse.dict()` or
`ErrorResponse.dict()`); keys the respective model lacks are `none`. -/
structure DlResult where
  status : String
  message : String
  file_path : Option String := none
  platform : Option String := none
  download_type : Option String := none
  file_size : Option String := none
  duration : Option String := none
deriving DecidableEq, Repr

/-- `ErrorResponse(message=..., platform=..., download_type=...).dict()`. -/
def mkErr (msg : String) (platform download_type : Option String) : DlResult :=
  { status := "error", message := msg, platform := platform,
    download_type := download_type }

/-- The "unsupported platform" message (enumerates the supported
platforms). -/
def unsupportedMsg : String :=
  "Unsupported platform or invalid URL. Supported platforms: " ++
    String.intercalate ", " get_supported_platforms

/-- Last position of `c` in `l` (Python `str.rfind`, `none` for `-1`). -/
def lastIdx (c : Char) (l : List Char) : Option Nat :=
  l.enum.foldl (fun acc p => if p.2 = c then some p.1 else acc) none

/-- `os.path.splitext(p)[0]` (POSIX rules): split at the last dot of the
basename, unless every character between the last separator and that dot is
itself a dot (leading dots do not start an extension). -/
def splitextRoot (p : String) : String :=
  let l := p.data
  match lastIdx '.' l with
  | none => p
  | some d =>
    let s : Nat := match lastIdx '/' l with
      | none => 0
      | some si => si + 1
    let sepOk : Bool := match lastIdx '/' l with
      | none => true
      | some si => si < d
    if sepOk &&
       (List.range d).any (fun i => s ≤ i && (l.getD i '.') ≠ '.') then
      ⟨l.take d⟩
    else p

/-- Lines 408–452 of `downloader.py`: everything after the engine calls
succeed, starting from the accumulated `downloaded_files`. -/
def finishDownload (dt : DlType) (platform ty : String) (info : Info)
    (env : Engine) (files : List String) : DlResult :=
  match files with
  | [] => mkErr "Download completed but no files were found."
      (some platform) (some ty)
  | fp0 :: _ =>
    let fp1 :=
      if dt = .audio then
        let mp3 := splitextRoot fp0 ++ ".mp3"
        if env.exists_fs mp3 ∧ fp0 ≠ mp3 then mp3 else fp0
      else fp0
    if env.exists_fs fp1 = false then
      mkErr ("Downloaded file not found: " ++ fp1) (some platform) (some ty)
    else
      { status := "success"
        message := dlTypeCap dt ++ " downloaded successfully."
        file_path := some (env.abspath fp1)
        platform := some platform
        download_type := some (dlTypeValue dt)
        file_size :=
          if env.exists_fs fp1 then format_file_size (some (env.getsize fp1))
          else none
        duration := format_duration info.duration }

/-- `VideoDownloader.download`, paired with the trace of engine invocations
(`"extract_info"` for `_extract_info`, `"download"` for each
`ydl.download` call). -/
def download (url ty : String) (env : Engine) : DlResult × List String :=
  match parseDlType ty with
  | none =>
    (mkErr ("Invalid download type. Must be 'video' or 'audio', got '" ++
        ty ++ "'") none none, [])
  | some dt =>
    match detect_platform url with
    | none => (mkErr unsupportedMsg none (some ty), [])
    | some platform =>
      match env.extract_info with
      | none =>
        (mkErr ("Failed to extract video information. The URL might be " ++
            "invalid or the video might be private.")
          (some platform) (some ty), ["extract_info"])
      | some info =>
        match env.attempt1 with
        | .ok files =>
          (finishDownload dt platform ty info env files,
           ["extract_info", "download"])
        | .err files1 _ =>
          match env.attempt2 with
          | .ok files2 =>
            (finishDownload dt platform ty info env (files1 ++ files2),
             ["extract_info", "download", "download"])
          | .err _ msg2 =>
            (mkErr ("Download failed: " ++ msg2) (some platform) (some ty),
             ["extract_info", "download", "download"])

/-! ## `get_video_info` and `list_formats` -/

/-- The dict returned by `get_video_info` (error-dict keys that the success
dict lacks, and vice versa, are `none`). -/
structure InfoResult where
  status : String
  message : String
  platform : Option String := none
  file_path : Option String := none
  download_type : Option String := none
  title : Option String := none
  duration : Option String := none
  duration_seconds : Option Nat := none
  view_count : Option Nat := none
  uploader : Option String := none
  upload_date : Option String := none
  description : Option String := none
  file_sizes : Option SizesResult := none
  video_quality : Option QualityResult := none
  thumbnail : Option String := none
  webpage_url : Option String := none
  format_count : Option Nat := none

/-- `description[:200] + '...' if description else None`. -/
def truncDescription (d : Option String) : Option String :=
  match d with
  | none => none
  | some s => if s = "" then none else some (s.take 200 ++ "...")

/-- `VideoDownloader.get_video_info`, paired with the engine trace. -/
def get_video_info (url : String) (env : Engine) : InfoResult × List String :=
  match detect_platform url with
  | none => ({ status := "error", message := unsupportedMsg }, [])
  | some platform =>
    match env.extract_info with
    | none =>
      ({ status := "error"
         message := "Failed to extract video information. The URL might " ++
           "be invalid or the video might be private."
         platform := some platform }, ["extract_info"])
    | some info =>
      ({ status := "success"
         message := "Video information extracted successfully."
         platform := some platform
         title := some (info.title.getD "Unknown")
         duration := format_duration info.duration
         duration_seconds := info.duration
         view_count := info.view_count
         uploader := some (info.uploader.getD "Unknown")
         upload_date := info.upload_date
         description := truncDescription info.description
         file_sizes := some (estSizes info.formats)
         video_quality := some (qualityInfo info.formats)
         thumbnail := info.thumbnail
         webpage_url := info.webpage_url
         format_count := some info.formats.length }, ["extract_info"])

/-- One entry of `list_formats`' `available_formats`. -/
structure FmtSummary where
  format_id : Option String
  ext : Option String
  resolution : String
  filesize : Option String
  vcodec : Option String
  acodec : Option String
  quality : Option Int
deriving DecidableEq, Repr

/-- The `format_info` dict of `list_formats` (note: the `resolution` default
checks `fmt.get('vcodec') == 'none'` with no `.get` default here). -/
def summarizeFormat (f : Format) : FmtSummary :=
  { format_id := f.format_id
    ext := f.ext
    resolution := f.resolution.getD
      (if f.vcodec = some "none" then "audio only" else "unknown")
    filesize := format_file_size f.filesize
    vcodec := f.vcodec
    acodec := f.acodec
    quality := f.quality }

/-- The dict returned by `list_formats`. -/
structure ListFormatsResult where
  status : String
  message : String
  platform : Option String := none
  file_path : Option String := none
  download_type : Option String := none
  title : Option String := none
  formats : List FmtSummary := []

/-- `VideoDownloader.list_formats`, paired with the engine trace. -/
def list_formats (url : String) (env : Engine) : ListFormatsResult × List String :=
  match detect_platform url with
  | none => ({ status := "error", message := unsupportedMsg }, [])
  | some platform =>
    match env.extract_info with
    | none =>
      ({ status := "error"
         message := "Failed to extract video information."
         platform := some platform }, ["extract_info"])
    | some info =>
      ({ status := "success"
         message := "Available formats retrieved successfully."
         platform := some platform
         title := some (info.title.getD "Unknown")
         formats := (info.formats.map summarizeFormat).take 10 },
       ["extract_info"])

/-! ## The Telegram endpoint (`src/api.py`, `download_video_telegram`) -/

/-- The JSON body built by `/download/telegram`. -/
structure TgResp where
  success : Bool
  message : String
  file_url : Option String := none
  file_name : Option String := none
  file_size : Option Nat := none
  duration : Option Nat := none
  width : Option Nat := none
  height : Option Nat := none
  thumbnail : Option String := none
  mime_type : Option String := none
  platform : Option String := none
  download_type : Option String := none
  title : Option String := none
  description : Option String := none

/-- `Path(p).name`: the part after the last `/`. -/
def basenameStr (p : String) : String :=
  match lastIdx '/' p.data with
  | none => p
  | some i => ⟨p.data.drop (i + 1)⟩

/-- Python `str.endswith` for a literal suffix. -/
def endsWith (s suffix : String) : Bool :=
  suffix.data.isSuffixOf s.data

/-- The MIME-type selection of the Telegram endpoint. -/
def tgMime (dt : DlType) (fname : String) : String :=
  match dt with
  | .video =>
    if endsWith fname ".mp4" then "video/mp4"
    else if endsWith fname ".webm" then "video/webm"
    else if endsWith fname ".mkv" then "video/x-matroska"
    else "video/mp4"
  | .audio =>
    if endsWith fname ".mp3" then "audio/mpeg"
    else if endsWith fname ".m4a" then "audio/mp4"
    else if endsWith fname ".ogg" then "audio/ogg"
    else "audio/mpeg"

/-- The endpoint's parse of a formatted duration string back to seconds
(`MM:SS` or `HH:MM:SS`; anything else, or an `int()` failure, yields
`None`). -/
def parseDurationStr (s : String) : Option Nat :=
  if strContains ":" s then
    match s.splitOn ":" with
    | [a, b] =>
      match a.toNat?, b.toNat? with
      | some x, some y => some (x * 60 + y)
      | _, _ => none
    | [a, b, c] =>
      match a.toNat?, b.toNat?, c.toNat? with
      | some x, some y, some z => some (x * 3600 + y * 60 + z)
      | _, _, _ => none
    | _ => none
  else none

/-- `download_video_telegram` on a validated request: run `get_video_info`,
run `download`, and shape the Telegram response.  On a download error every
data field is explicitly `None`. -/
def download_video_telegram (url : String) (rt : DlType) (env : Engine) : TgResp :=
  let info_result := (get_video_info url env).1
  let dres := (download url (dlTypeValue rt) env).1
  if dres.status = "error" then
    { success := false
      message := dres.message
      file_url := none, file_name := none, file_size := none
      duration := none, width := none, height := none
      thumbnail := none, mime_type := none
      platform := dres.platform
      download_type := some (dlTypeValue rt)
      title := none, description := none }
  else
    let fp := dres.file_path.getD ""
    let fname := basenameStr fp
    let fsize := if env.exists_fs fp then some (env.getsize fp) else none
    let durSecs :=
      if info_result.status = "success" then
        match info_result.duration with
        | some ds => if ds = "" then none else parseDurationStr ds
        | none => none
      else none
    let dims : Option Nat × Option Nat :=
      if rt = .video ∧ info_result.status = "success" then (some 1280, some 720)
      else (none, none)
    { success := true
      message := dlTypeCap rt ++ " downloaded successfully for Telegram bot"
      file_url := some ("http://localhost:8000/download/" ++ fname)
      file_name := some fname
      file_size := fsize
      duration := durSecs
      width := dims.1
      height := dims.2
      thumbnail := none
      mime_type := some (tgMime rt fname)
      platform := dres.platform
      download_type := some (dlTypeValue rt)
      title := if info_result.status = "success" then info_result.title else none
      description :=
        if info_result.status = "success" then info_result.description else none }

/-! ## Auxiliary definitions for the verification -/

/-- The best-quality fold of `_get_video_quality_info` restricted to the
contributing formats (no filtering inside): replace the best exactly when the
new height is strictly greater. -/
def bqStep (acc : Option VQDesc) (f : Format) : Option VQDesc :=
  match acc with
  | none => some (mkDescF f)
  | some b => if b.height < hgt f then some (mkDescF f) else some b

/-- An engine environment in which everything fails: metadata extraction
returns nothing, both download attempts raise, no file exists. -/
def trivEnv : Engine :=
  { extract_info := none
    attempt1 := .err [] "boom"
    attempt2 := .err [] "boom"
    exists_fs := fun _ => false
    getsize := fun _ => 0
    abspath := fun s => s }

/-- Metadata for the audio-download scenario. -/
def mp3Info : Info := { duration := some 65 }

/-- Engine environment for the audio-download scenario: the engine reports
`X.webm`, and `X.mp3` (and only it) exists on disk. -/
def mp3Env : Engine :=
  { extract_info := some mp3Info
    attempt1 := .ok ["X.webm"]
    attempt2 := .err [] "unused"
    exists_fs := fun s => s == "X.mp3"
    getsize := fun _ => 3
    abspath := fun s => "/d/" ++ s }

/-- Two video formats with the same height 720 and different extensions. -/
def cf1 : Format := { vcodec := some "avc1", height := some 720, ext := some "mp4" }

/-- The later-encountered format of the 720p tie. -/
def cf2 : Format := { vcodec := some "avc1", height := some 720, ext := some "webm" }

/-- A sized video format below 720p. -/
def v480 : Format :=
  { vcodec := some "avc1", height := some 480, filesize := some 1000, ext := some "mp4" }

/-- A sized audio-only format. -/
def aud1 : Format :=
  { vcodec := some "none", acodec := some "mp4a.40.2", filesize := some 500 }

/-! ## Helper lemmas -/

theorem listContains_iff (n : List Char) (l : List Char) :
    listContains n l = true ↔ n <:+: l := by
  induction l with
  | nil => simp [listContains, List.isPrefixOf_iff_prefix]
  | cons c t ih =>
    simp [listContains, List.isPrefixOf_iff_prefix, ih, List.infix_cons_iff]

theorem searchSeq_of_seqMatch (ts : List Tok) (l : List Char)
    (h : seqMatch ts l = true) : searchSeq ts l = true := by
  cases l with
  | nil => exact h
  | cons c t => simp [searchSeq, h]

theorem seqMatch_lit (d l : List Char) (h : d <+: l) :
    seqMatch [Tok.lit d] l = true := by
  simp [seqMatch, List.isPrefixOf_iff_prefix, h]

theorem searchSeq_lit (d l : List Char) (h : d <:+: l) :
    searchSeq [Tok.lit d] l = true := by
  obtain ⟨s, t, rfl⟩ := h
  induction s with
  | nil =>
    exact searchSeq_of_seqMatch _ _
      (seqMatch_lit d _ (by simp [List.prefix_append]))
  | cons c s' ih =>
    simp only [List.cons_append, searchSeq, Bool.or_eq_true]
    exact Or.inr ih

theorem detectL_eq_some (l : List (String × List Pat)) (u : List Char)
    (p : String) (h : detectL l u = some p) :
    ∃ i, ∃ hi : i < l.length,
      (l.get ⟨i, hi⟩).1 = p ∧
      anyPatMatch (l.get ⟨i, hi⟩).2 u = true ∧
      ∀ j, (hj : j < l.length) → j < i →
        anyPatMatch (l.get ⟨j, hj⟩).2 u = false := by
  induction l with
  | nil => simp [detectL] at h
  | cons pr rest ih =>
    obtain ⟨name, pats⟩ := pr
    by_cases hm : anyPatMatch pats u = true
    · refine ⟨0, by simp, ?_, hm, fun j hj hj0 => absurd hj0 (Nat.not_lt_zero j)⟩
      simpa [detectL, hm] using h
    · have h' : detectL rest u = some p := by
        simpa [detectL, hm] using h
      obtain ⟨i, hi, h1, h2, h3⟩ := ih h'
      refine ⟨i + 1, by simpa using Nat.succ_lt_succ hi, h1, h2, ?_⟩
      intro j hj hji
      cases j with
      | zero => simpa using Bool.eq_false_iff.mpr hm
      | succ j' =>
        exact h3 j' (by simpa using Nat.lt_of_succ_lt_succ hj)
          (Nat.lt_of_succ_lt_succ hji)

theorem detectL_eq_none (l : List (String × List Pat)) (u : List Char) :
    detectL l u = none ↔ ∀ pr ∈ l, anyPatMatch pr.2 u = false := by
  induction l with
  | nil => simp [detectL]
  | cons pr rest ih =>
    obtain ⟨name, pats⟩ := pr
    constructor
    · intro h pr' hpr'
      by_cases hm : anyPatMatch pats u = true
      · rw [show detectL ((name, pats) :: rest) u =
            (if anyPatMatch pats u then some name else detectL rest u)
          from rfl, if_pos hm] at h
        exact absurd h (by simp)
      · rw [show detectL ((name, pats) :: rest) u =
            (if anyPatMatch pats u then some name else detectL rest u)
          from rfl, if_neg (by simpa using hm)] at h
        rcases List.mem_cons.mp hpr' with rfl | hmem
        · exact Bool.eq_false_iff.mpr hm
        · exact ih.mp h pr' hmem
    · intro h
      have hm : anyPatMatch pats u = false :=
        h (name, pats) (List.mem_cons_self _ _)
      rw [show detectL ((name, pats) :: rest) u =
          (if anyPatMatch pats u then some name else detectL rest u)
        from rfl, if_neg (by simp [hm])]
      exact ih.mpr fun pr' hpr' => h pr' (List.mem_cons_of_mem _ hpr')

theorem detectL_isSome_of_mem (l : List (String × List Pat)) (u : List Char)
    (pr : String × List Pat) (h1 : pr ∈ l)
    (h2 : anyPatMatch pr.2 u = true) : (detectL l u).isSome = true := by
  induction l with
  | nil => simp at h1
  | cons q rest ih =>
    obtain ⟨name, pats⟩ := q
    rcases List.mem_cons.mp h1 with rfl | hmem
    · simp [detectL, h2]
    · by_cases hm : anyPatMatch pats u = true <;>
        simp [detectL, hm, ih hmem]

/-! ## C2: `_format_duration` -/

/-- C2: `_format_duration(None) = None`; on a non-negative number of seconds
it computes hours, minutes and seconds by floor division and renders
`HH:MM:SS` (each zero-padded to 2 digits) when hours > 0, else `MM:SS`;
`_format_duration(65) = "01:05"` and `_format_duration(3665) = "01:01:05"`. -/
theorem format_duration_spec :
    format_duration none = none ∧
    (∀ d : Nat, format_duration (some d) =
      some (if 0 < d / 3600 then
              pad2 (d / 3600) ++ ":" ++ pad2 (d % 3600 / 60) ++ ":" ++ pad2 (d % 60)
            else
              pad2 (d % 3600 / 60) ++ ":" ++ pad2 (d % 60))) ∧
    format_duration (some 65) = some "01:05" ∧
    format_duration (some 3665) = some "01:01:05" := by
  refine ⟨rfl, ?_, by decide, by decide⟩
  intro d
  by_cases h : 0 < d / 3600 <;> simp [format_duration, h]

/-! ## C3: `_format_file_size` -/

/-- C3: `_format_file_size(None) = None`; on a byte count it divides by 1024
while the value is at least 1024, stepping through B, KB, MB, GB and ending
at TB, and renders the exact value with one decimal place and the unit
suffix; `1024 → "1.0 KB"`, `1048576 → "1.0 MB"`, `1536 → "1.5 KB"`. -/
theorem format_file_size_spec :
    format_file_size none = none ∧
    (∀ n : Nat, format_file_size (some n) =
      some (fmtOneDecimal n (1024 ^ unitIdx n) ++ " " ++ unitName (unitIdx n))) ∧
    format_file_size (some 1024) = some "1.0 KB" ∧
    format_file_size (some 1048576) = some "1.0 MB" ∧
    format_file_size (some 1536) = some "1.5 KB" := by
  refine ⟨rfl, ?_, by decide, by decide, by decide⟩
  intro n
  simp only [format_file_size, fsRender, sizeUnits, fsGo, unitIdx, unitName,
    Option.some.injEq]
  norm_num
  split_ifs <;> rfl

/-! ## C1: `detect_platform` -/

/-- C1: `detect_platform` lower-cases the URL and returns the first platform
(in the table's fixed insertion order) one of whose patterns matches the
lowered URL; it returns `None` exactly when no pattern of any platform
matches (a total function: absence of a match is `None`, not an error);
`detect_platform('https://youtu.be/dQw4w9WgXcQ') = 'YouTube'` and
`detect_platform('https://example.com/video') = None`. -/
theorem detect_platform_spec :
    (∀ url p, detect_platform url = some p →
      ∃ i, ∃ hi : i < PLATFORM_PATTERNS.length,
        (PLATFORM_PATTERNS.get ⟨i, hi⟩).1 = p ∧
        anyPatMatch (PLATFORM_PATTERNS.get ⟨i, hi⟩).2 (lowerL url) = true ∧
        ∀ j, (hj : j < PLATFORM_PATTERNS.length) → j < i →
          anyPatMatch (PLATFORM_PATTERNS.get ⟨j, hj⟩).2 (lowerL url) = false) ∧
    (∀ url, detect_platform url = none ↔
      ∀ pr ∈ PLATFORM_PATTERNS, anyPatMatch pr.2 (lowerL url) = false) ∧
    detect_platform "https://youtu.be/dQw4w9WgXcQ" = some "YouTube" ∧
    detect_platform "https://example.com/video" = none := by
  refine ⟨?_, ?_, by decide, by decide⟩
  · intro url p h
    exact detectL_eq_some PLATFORM_PATTERNS (lowerL url) p h
  · intro url
    exact detectL_eq_none PLATFORM_PATTERNS (lowerL url)

/-- Witness for C1 at the concrete YouTube URL. -/
theorem detect_platform_spec_witness :
    ∃ i, ∃ hi : i < PLATFORM_PATTERNS.length,
      (PLATFORM_PATTERNS.get ⟨i, hi⟩).1 = "YouTube" ∧
      anyPatMatch (PLATFORM_PATTERNS.get ⟨i, hi⟩).2
        (lowerL "https://youtu.be/dQw4w9WgXcQ") = true ∧
      ∀ j, (hj : j < PLATFORM_PATTERNS.length) → j < i →
        anyPatMatch (PLATFORM_PATTERNS.get ⟨j, hj⟩).2
          (lowerL "https://youtu.be/dQw4w9WgXcQ") = false :=
  detect_platform_spec.1 "https://youtu.be/dQw4w9WgXcQ" "YouTube" (by decide)

/-! ## C5: invalid download type -/

/-- C5 (amended): for every URL and every `download_type` whose lower-cased
form is outside {video, audio}, `download` returns, before platform
detection and with no engine call, an error whose message contains
"Invalid download type"; the result does not depend on the URL or the
engine. -/
theorem invalid_download_type_error (url ty : String) (env : Engine)
    (h1 : lowerS ty ≠ "video") (h2 : lowerS ty ≠ "audio") :
    download url ty env =
      (mkErr ("Invalid download type. Must be 'video' or 'audio', got '" ++
        ty ++ "'") none none, []) ∧
    strContains "Invalid download type" (download url ty env).1.message = true := by
  have hp : parseDlType ty = none := by simp [parseDlType, h1, h2]
  have hd : download url ty env =
      (mkErr ("Invalid download type. Must be 'video' or 'audio', got '" ++
        ty ++ "'") none none, []) := by
    simp [download, hp]
  refine ⟨hd, ?_⟩
  rw [hd]
  show strContains "Invalid download type" _ = true
  rw [strContains, listContains_iff]
  have hpre : ("Invalid download type").data <+:
      ("Invalid download type. Must be 'video' or 'audio', got '").data :=
    List.isPrefixOf_iff_prefix.mp (by decide)
  show ("Invalid download type").data <:+:
    (("Invalid download type. Must be 'video' or 'audio', got '" ++ ty) ++ "'").data
  rw [String.data_append, String.data_append]
  exact ((hpre.trans (List.prefix_append _ _)).trans
    (List.prefix_append _ _)).isInfix

/-- Counterexample for C5 as stated: `"VIDEO"` is a download_type string
outside {video, audio}, yet `download` does not return the
"Invalid download type" error for it (the code lower-cases the string
first); with an engine whose extraction fails it reaches the extraction
error instead. -/
theorem invalid_download_type_counterexample :
    ("VIDEO" ≠ "video" ∧ "VIDEO" ≠ "audio") ∧
    (download "https://youtu.be/x" "VIDEO" trivEnv).1.message =
      "Failed to extract video information. The URL might be " ++
        "invalid or the video might be private." ∧
    strContains "Invalid download type"
      ((download "https://youtu.be/x" "VIDEO" trivEnv).1.message) = false := by
  refine ⟨by decide, by decide, by decide⟩

/-- Witness for C5 (amended) at `download_type = "foo"`. -/
theorem invalid_download_type_error_witness :
    download "https://example.com/a" "foo" trivEnv =
      (mkErr ("Invalid download type. Must be 'video' or 'audio', got '" ++
        "foo" ++ "'") none none, []) ∧
    strContains "Invalid download type"
      (download "https://example.com/a" "foo" trivEnv).1.message = true :=
  invalid_download_type_error "https://example.com/a" "foo" trivEnv
    (by decide) (by decide)

/-! ## C6: unsupported platform precedes any engine call -/

/-- C6: on a URL whose platform is not detected, `download` (with a valid
type), `get_video_info` and `list_formats` all return the error that
enumerates the supported platforms, and the engine trace is empty: platform
detection strictly precedes any engine call. -/
theorem unsupported_platform_no_engine (url ty : String) (env : Engine)
    (hty : (parseDlType ty).isSome = true)
    (hp : detect_platform url = none) :
    download url ty env = (mkErr unsupportedMsg none (some ty), []) ∧
    get_video_info url env = ({ status := "error", message := unsupportedMsg }, []) ∧
    list_formats url env = ({ status := "error", message := unsupportedMsg }, []) ∧
    ∀ q ∈ get_supported_platforms, strContains q unsupportedMsg = true := by
  obtain ⟨dt, hdt⟩ := Option.isSome_iff_exists.mp hty
  refine ⟨?_, ?_, ?_, by decide⟩
  · simp [download, hdt, hp]
  · simp [get_video_info, hp]
  · simp [list_formats, hp]

/-- Witness for C6 at `https://example.com/video`. -/
theorem unsupported_platform_no_engine_witness :
    download "https://example.com/video" "video" trivEnv =
      (mkErr unsupportedMsg none (some "video"), []) ∧
    get_video_info "https://example.com/video" trivEnv =
      ({ status := "error", message := unsupportedMsg }, []) ∧
    list_formats "https://example.com/video" trivEnv =
      ({ status := "error", message := unsupportedMsg }, []) ∧
    ∀ q ∈ get_supported_platforms, strContains q unsupportedMsg = true :=
  unsupported_platform_no_engine "https://example.com/video" "video" trivEnv
    (by decide) (by decide)

/-! ## C7: audio downloads prefer the converted `.mp3` sibling -/

/-- C7: on a successful audio download whose first engine-reported file is
`P`, if the sibling `P`-with-`.mp3`-extension exists on disk and differs
from `P`, the success result's `file_path` is the absolute path of that
`.mp3` file. -/
theorem audio_mp3_sibling_preferred (url ty : String) (env : Engine)
    (info : Info) (p P : String) (rest : List String)
    (hty : parseDlType ty = some .audio)
    (hp : detect_platform url = some p)
    (hi : env.extract_info = some info)
    (ha : env.attempt1 = .ok (P :: rest))
    (hmp3 : env.exists_fs (splitextRoot P ++ ".mp3") = true)
    (hne : P ≠ splitextRoot P ++ ".mp3") :
    (download url ty env).1.status = "success" ∧
    (download url ty env).1.file_path =
      some (env.abspath (splitextRoot P ++ ".mp3")) := by
  have hd : download url ty env =
      (finishDownload .audio p ty info env (P :: rest),
       ["extract_info", "download"]) := by
    simp [download, hty, hp, hi, ha]
  rw [hd]
  simp [finishDownload, hmp3, hne]

/-- Witness for C7: the engine reports `X.webm`, `X.mp3` exists. -/
theorem audio_mp3_sibling_preferred_witness :
    (download "https://youtu.be/a" "audio" mp3Env).1.status = "success" ∧
    (download "https://youtu.be/a" "audio" mp3Env).1.file_path =
      some (mp3Env.abspath (splitextRoot "X.webm" ++ ".mp3")) :=
  audio_mp3_sibling_preferred "https://youtu.be/a" "audio" mp3Env mp3Info
    "YouTube" "X.webm" [] (by decide) (by decide) rfl rfl
    (by decide) (by decide)

/-! ## C8: Telegram endpoint nulls all data fields on failure -/

/-- C8: whenever the underlying `download` returns an error result, the
Telegram endpoint's response has `success = false`, carries only the error
message and the diagnostic platform / download_type, and every data field
(file_url, file_name, file_size, duration, width, height, thumbnail,
mime_type, title, description) is explicitly null. -/
theorem telegram_error_all_null (url : String) (rt : DlType) (env : Engine)
    (h : (download url (dlTypeValue rt) env).1.status = "error") :
    download_video_telegram url rt env =
      { success := false
        message := (download url (dlTypeValue rt) env).1.message
        file_url := none, file_name := none, file_size := none
        duration := none, width := none, height := none
        thumbnail := none, mime_type := none
        platform := (download url (dlTypeValue rt) env).1.platform
        download_type := some (dlTypeValue rt)
        title := none, description := none } := by
  simp only [download_video_telegram]
  rw [if_pos h]

/-- Witness for C8: a request whose download fails (extraction failure). -/
theorem telegram_error_all_null_witness :
    download_video_telegram "https://youtu.be/a" .video trivEnv =
      { success := false
        message := (download "https://youtu.be/a" (dlTypeValue .video) trivEnv).1.message
        file_url := none, file_name := none, file_size := none
        duration := none, width := none, height := none
        thumbnail := none, mime_type := none
        platform := (download "https://youtu.be/a" (dlTypeValue .video) trivEnv).1.platform
        download_type := some (dlTypeValue .video)
        title := none, description := none } :=
  telegram_error_all_null "https://youtu.be/a" .video trivEnv (by decide)

/-! ## C9: the request allowlist implies platform detection -/

theorem detect_of_lit_domain (url d : String)
    (hex : (PLATFORM_PATTERNS.any fun pr =>
        pr.2.any fun pat => decide ([Tok.lit d.data] ∈ pat)) = true)
    (hlow : d.data.map Char.toLower = d.data)
    (hinf : d.data <:+: url.data) :
    (detect_platform url).isSome = true := by
  obtain ⟨pr, hpr, h2⟩ := List.any_eq_true.mp hex
  obtain ⟨pat, hpat, h3⟩ := List.any_eq_true.mp h2
  have halt : [Tok.lit d.data] ∈ pat := of_decide_eq_true h3
  have hinf2 : d.data <:+: lowerL url := by
    show d.data <:+: url.data.map Char.toLower
    rw [← hlow]
    exact hinf.map Char.toLower
  have hsearch : searchSeq [Tok.lit d.data] (lowerL url) = true :=
    searchSeq_lit _ _ hinf2
  have hre : reSearch pat (lowerL url) = true :=
    List.any_eq_true.mpr ⟨_, halt, hsearch⟩
  have hany : anyPatMatch pr.2 (lowerL url) = true :=
    List.any_eq_true.mpr ⟨pat, hpat, hre⟩
  exact detectL_isSome_of_mem _ _ _ hpr hany

/-- C9: every URL accepted by `DownloadRequest.validate_url`'s
supported-domain allowlist is assigned a platform by `detect_platform`: the
boundary allowlist and the regex detector never disagree in the direction
"allowlist accepts but detector rejects". -/
theorem allowlist_implies_detect (url : String)
    (h : validate_url url = true) :
    (detect_platform url).isSome = true := by
  obtain ⟨d, hd, hc⟩ := List.any_eq_true.mp h
  have hinf : d.data <:+: url.data := (listContains_iff _ _).mp hc
  simp only [supported_domains, List.mem_cons, List.not_mem_nil,
    or_false] at hd
  rcases hd with rfl | rfl | rfl | rfl | rfl | rfl | rfl | rfl | rfl | rfl | rfl <;>
    exact detect_of_lit_domain url _ (by decide) (by decide) hinf

/-- Witness for C9 at an `fb.watch` URL. -/
theorem allowlist_implies_detect_witness :
    (detect_platform "https://fb.watch/abc").isSome = true :=
  allowlist_implies_detect "https://fb.watch/abc" (by decide)

/-! ## C4: `_get_video_quality_info` -/

theorem mkDescF_height (f : Format) : (mkDescF f).height = hgt f := rfl

theorem vqLoop_split (fmts : List Format) :
    ∀ acc : Option VQDesc × List Nat,
      fmts.foldl vqStep acc =
        ((vids fmts).foldl bqStep acc.1, acc.2 ++ (vids fmts).map hgt) := by
  induction fmts with
  | nil => intro acc; simp [vids]
  | cons f rest ih =>
    intro acc
    by_cases hv : isVid f = true
    · cases hth : truthyHeight f with
      | some h =>
        have hvids : vids (f :: rest) = f :: vids rest := by
          simp [vids, List.filter_cons, hv, hth]
        have hh : hgt f = h := by simp [hgt, hth]
        have hstep : vqStep acc f = (bqStep acc.1 f, acc.2 ++ [hgt f]) := by
          cases hacc : acc.1 <;>
            simp [vqStep, hv, hth, bqStep, mkDescF, hacc, hh]
        rw [List.foldl_cons, hstep, ih, hvids]
        simp [List.append_assoc]
      | none =>
        have hvids : vids (f :: rest) = vids rest := by
          simp [vids, List.filter_cons, hv, hth]
        have hstep : vqStep acc f = acc := by simp [vqStep, hv, hth]
        rw [List.foldl_cons, hstep, ih, hvids]
    · have hvids : vids (f :: rest) = vids rest := by
        simp [vids, List.filter_cons, hv]
      have hstep : vqStep acc f = acc := by simp [vqStep, hv]
      rw [List.foldl_cons, hstep, ih, hvids]

theorem bqFold_argmax (l : List Format) :
    ∀ o : Option Format,
      l.foldl bqStep (o.map mkDescF) =
        (l.foldl (List.argAux fun b c => hgt c < hgt b) o).map mkDescF := by
  induction l with
  | nil => intro o; rfl
  | cons f rest ih =>
    intro o
    rw [List.foldl_cons, List.foldl_cons]
    have hstep : bqStep (o.map mkDescF) f =
        (List.argAux (fun b c => hgt c < hgt b) o f).map mkDescF := by
      cases o with
      | none => rfl
      | some c =>
        show (if (mkDescF c).height < hgt f then some (mkDescF f)
              else some (mkDescF c)) =
          Option.map mkDescF (if hgt c < hgt f then some f else some c)
        rw [mkDescF_height, apply_ite (Option.map mkDescF)]
        simp
    rw [hstep, ih]

theorem bestQuality_eq_argmax (fmts : List Format) :
    bestQuality fmts = ((vids fmts).argmax hgt).map mkDescF := by
  have h1 := vqLoop_split fmts (none, [])
  have h2 : bestQuality fmts = (vids fmts).foldl bqStep none := by
    rw [bestQuality, vqLoop, h1]
  rw [h2, List.argmax]
  exact bqFold_argmax (vids fmts) none

theorem collectedHeights_eq (fmts : List Format) :
    collectedHeights fmts = (vids fmts).map hgt := by
  have h1 := vqLoop_split fmts (none, [])
  rw [collectedHeights, vqLoop, h1]
  simp

/-- C4 (amended): `best_quality` is built from the video format (video codec
present, truthy height) with the greatest height, where a later-encountered
entry replaces the current best only on strictly greater height, so ties are
kept by the earlier entry (first-max-wins); `available_qualities` is the set
of distinct `{height}p` labels present, sorted descending numerically. -/
theorem quality_info_spec (fmts : List Format) :
    (bestQuality fmts = none ↔ vids fmts = []) ∧
    (∀ b, bestQuality fmts = some b →
      ∃ f, f ∈ vids fmts ∧ b = mkDescF f ∧
        (∀ g ∈ vids fmts, hgt g ≤ hgt f) ∧
        (∀ g ∈ vids fmts, hgt f ≤ hgt g →
          (vids fmts).indexOf f ≤ (vids fmts).indexOf g)) ∧
    (∀ h, h ∈ qualHeights fmts ↔ ∃ f ∈ vids fmts, hgt f = h) ∧
    List.Pairwise (fun a b => b < a) (qualHeights fmts) ∧
    availableQualities fmts = (qualHeights fmts).map (fun h => toString h ++ "p") := by
  refine ⟨?_, ?_, ?_, ?_, rfl⟩
  · rw [bestQuality_eq_argmax, Option.map_eq_none']
    exact List.argmax_eq_none
  · intro b hb
    rw [bestQuality_eq_argmax] at hb
    obtain ⟨f, hfeq, hmap⟩ := Option.map_eq_some'.mp hb
    have hfm : f ∈ (vids fmts).argmax hgt := Option.mem_def.mpr hfeq
    refine ⟨f, List.argmax_mem hfm, hmap.symm, ?_, ?_⟩
    · exact fun g hg => List.le_of_mem_argmax hg hfm
    · exact fun g hg hle => List.index_of_argmax hfm hg hle
  · intro h
    rw [qualHeights, (List.perm_insertionSort descRel _).mem_iff,
      List.mem_dedup, collectedHeights_eq, List.mem_map]
  · have hs : List.Pairwise descRel (qualHeights fmts) :=
      List.sorted_insertionSort descRel _
    have hn : (qualHeights fmts).Nodup :=
      ((List.perm_insertionSort descRel _).nodup_iff).mpr
        (List.nodup_dedup _)
    exact (hs.and hn).imp fun hab =>
      lt_of_le_of_ne hab.1 (Ne.symm hab.2)

/-- Counterexample for C4 as stated: on a height tie the later format does
NOT replace the earlier one — the earlier one is kept (the code uses a
strict comparison). -/
theorem quality_tie_counterexample :
    hgt cf1 = hgt cf2 ∧ cf1 ≠ cf2 ∧
    bestQuality [cf1, cf2] = some (mkDescF cf1) ∧
    ¬ bestQuality [cf1, cf2] = some (mkDescF cf2) ∧
    (mkDescF cf1).ext = some "mp4" ∧ (mkDescF cf2).ext = some "webm" := by
  decide

/-- Witness for C4 (amended) on the two-element tie list. -/
theorem quality_info_spec_witness :
    ∃ f, f ∈ vids [cf1, cf2] ∧ mkDescF cf1 = mkDescF f ∧
      (∀ g ∈ vids [cf1, cf2], hgt g ≤ hgt f) ∧
      (∀ g ∈ vids [cf1, cf2], hgt f ≤ hgt g →
        (vids [cf1, cf2]).indexOf f ≤ (vids [cf1, cf2]).indexOf g) :=
  (quality_info_spec [cf1, cf2]).2.1 (mkDescF cf1) (by decide)

/-! ## C10: `_get_estimated_file_sizes` takes no video below 720p as best -/

theorem esFold_bv_none (l : List Format) :
    ∀ st : ESState,
      (∀ f ∈ l, effSize f ≠ none → isVid f = true → f.height.getD 0 < 720) →
      st.bv = none → (l.foldl esStep st).bv = none := by
  induction l with
  | nil => intro st _ h0; exact h0
  | cons f rest ih =>
    intro st h h0
    rw [List.foldl_cons]
    apply ih _ fun g hg => h g (List.mem_cons_of_mem _ hg)
    cases he : effSize f with
    | none => simpa [esStep, he] using h0
    | some n =>
      by_cases hv : isVid f = true
      · have hlt := h f (List.mem_cons_self _ _) (by simp [he]) hv
        have hdec : decide (720 ≤ f.height.getD 0) = false := by
          simp only [decide_eq_false_iff_not]
          omega
        simp [esStep, he, hv, hdec, h0]
      · by_cases ha : isAud f = true <;> simp [esStep, he, hv, ha, h0]

/-- C10: `best_video` is only ever assigned a format of height at least 720:
if no sized video format reaches 720p, `best_video` is `None` (even when
`video_options` would be non-empty) and `estimated_total` counts only the
best audio size (`None` when there is no best audio either). -/
theorem est_sizes_no_hd_video (fmts : List Format)
    (h : ∀ f ∈ fmts, effSize f ≠ none → isVid f = true →
      f.height.getD 0 < 720) :
    (estSizes fmts).best_video = none ∧
    (estSizes fmts).estimated_total =
      ((estSizes fmts).best_audio).map fun a => fsRender a.filesize := by
  have hbv : (fmts.foldl esStep ⟨none, none, [], []⟩).bv = none :=
    esFold_bv_none fmts _ h rfl
  constructor
  · simp [estSizes, hbv]
  · simp only [estSizes]
    rw [hbv]
    cases hba : (fmts.foldl esStep ⟨none, none, [], []⟩).ba with
    | none => simp
    | some a => simp [format_file_size]

/-- Witness for C10: a sized 480p video format and a sized audio format. -/
theorem est_sizes_no_hd_video_witness :
    (estSizes [v480, aud1]).best_video = none ∧
    (estSizes [v480, aud1]).estimated_total =
      ((estSizes [v480, aud1]).best_audio).map fun a => fsRender a.filesize :=
  est_sizes_no_hd_video [v480, aud1] (by decide)
